import Mathlib

/-!
Verification of the agentic payment-operations control loop
(observer / reasoner / decision engine / executor / learner / orchestrator).

Shallow embedding of the Python sources: each Python class becomes a Lean
structure, each mutating method becomes a pure state-passing function returning
the updated state.  Python floats are modelled exactly as rationals (ℚ);
Python dicts become association lists; `time.time()` calls become an explicit
`ts : ℚ` argument.  Dashboard-presentation strings (the f-string interpolations
of numeric values into log messages) are modelled by plain string
concatenation with `toString`; purely decorative text that no claim inspects
is kept as the constant part of the source message.
-/

namespace PayOps

/-- models.PaymentOutcome -/
inductive PaymentOutcome where
  | success
  | failed
  | pending
  | timeout
deriving DecidableEq, Repr

/-- models.ErrorCode -/
inductive ErrorCode where
  | none_
  | insufficientFunds
  | issuerUnavailable
  | networkTimeout
  | invalidCard
  | rateLimited
  | unknown
deriving DecidableEq, Repr

/-- The string value of an ErrorCode (models.ErrorCode inherits str). -/
def ErrorCode.value : ErrorCode → String
  | .none_ => "none"
  | .insufficientFunds => "insufficient_funds"
  | .issuerUnavailable => "issuer_unavailable"
  | .networkTimeout => "network_timeout"
  | .invalidCard => "invalid_card"
  | .rateLimited => "rate_limited"
  | .unknown => "unknown"

/-- models.PaymentEvent.  The optional Plan-A fields (`merchant_id`,
`total_attempts`, `estimated_cost`) read via `getattr(..., None)` in the
observer are modelled as `Option` fields. -/
structure PaymentEvent where
  event_id : String
  issuer_bank : String
  payment_method : String
  latency_ms : ℚ
  retries : ℕ
  outcome : PaymentOutcome
  error_code : ErrorCode
  timestamp : ℚ := 0
  merchant_id : Option String := none
  total_attempts : Option ℕ := none
  estimated_cost : Option ℚ := none
deriving DecidableEq, Repr

/-- models.WindowMetrics, with the optional Plan-A fields attached by the
observer (`attempt_amplification`, `average_estimated_cost`, merchant
breakdowns) as `Option` fields, matching the `getattr(..., None)` reads. -/
structure WindowMetrics where
  window_id : String
  start_ts : ℚ
  end_ts : ℚ
  success_rate : ℚ
  p95_latency_ms : ℚ
  retry_amplification : ℚ
  error_distribution : List (String × ℚ)
  success_rate_by_issuer : List (String × ℚ)
  sample_count : ℕ
  success_rate_by_merchant : Option (List (String × ℚ)) := none
  attempt_amplification_by_merchant : Option (List (String × ℚ)) := none
  avg_cost_by_merchant : Option (List (String × ℚ)) := none
  attempt_amplification : Option ℚ := none
  average_estimated_cost : Option ℚ := none
deriving DecidableEq, Repr

/-- models.Hypothesis (with the `uncertainty` field used throughout the
top-level sources). -/
structure Hypothesis where
  cause : String
  confidence : ℚ
  evidence : String
  source : String := "heuristic"
  uncertainty : ℚ := 0
deriving DecidableEq, Repr

/-- Values storable in an Action's `params` dict. -/
inductive PVal where
  | pbool (b : Bool)
  | pnum (q : ℚ)
  | pstr (s : String)
deriving DecidableEq, Repr

/-- An Action's `params : dict[str, Any]`, as an association list. -/
abbrev Params := List (String × PVal)

/-- Python `params[k] = v` (insert or overwrite). -/
def Params.set (p : Params) (k : String) (v : PVal) : Params :=
  (k, v) :: p.filter (fun kv => kv.1 ≠ k)

/-- Python `params.get(k)` (None when absent). -/
def Params.get? (p : Params) (k : String) : Option PVal :=
  p.lookup k

/-- models.ActionType string constants. -/
def ActionType.REROUTE : String := "reroute"

def ActionType.RETRY_POLICY : String := "retry_policy"

def ActionType.SUPPRESS : String := "suppress"

def ActionType.NO_OP : String := "no_op"

/-- models.Action. -/
structure Action where
  action_type : String
  target : Option String := none
  params : Params := []
  risk_score : ℚ := 0
  reason : String := ""
deriving DecidableEq, Repr

/-- models.DecisionTrace (`hypothesis` is Optional in the source: the
approval path builds a trace with `hypothesis=None`). -/
structure DecisionTrace where
  hypothesis : Option Hypothesis
  action : Action
  risk_score : ℚ
  reasoning : String
  timestamp : ℚ := 0
deriving DecidableEq, Repr

/-- Snapshot produced by learner._metrics_snapshot (a dict with these keys). -/
structure MetricsSnapshot where
  success_rate : ℚ
  p95_latency_ms : ℚ
  retry_amplification : ℚ
  sample_count : ℕ
  average_estimated_cost : Option ℚ
  attempt_amplification : Option ℚ
deriving DecidableEq, Repr

/-- models.OutcomeRecord. -/
structure OutcomeRecord where
  context_snapshot : MetricsSnapshot
  action : Action
  outcome_metrics : MetricsSnapshot
  helped : Bool
  rollback_applied : Bool := false
deriving DecidableEq, Repr

/-! ## Observer (observer.py) -/

/-- Observer state: the sliding buffer plus the window counter mutated by
`get_current_metrics`. -/
structure Observer where
  window_size : ℕ := 200
  window_advance_events : ℕ := 50
  buffer : List PaymentEvent := []
  window_counter : ℕ := 0
deriving DecidableEq, Repr

/-- Python `xs[-n:]` on a list (last `n` elements, whole list if shorter). -/
def takeLast {α : Type} (n : ℕ) (xs : List α) : List α :=
  xs.drop (xs.length - n)

/-- Observer.ingest: append one event; keep buffer at most window_size (FIFO). -/
def Observer.ingest (o : Observer) (e : PaymentEvent) : Observer :=
  let buf := o.buffer ++ [e]
  if buf.length > o.window_size then
    { o with buffer := takeLast o.window_size buf }
  else
    { o with buffer := buf }

/-- Observer.ready. -/
def Observer.ready (o : Observer) : Bool :=
  o.buffer.length ≥ o.window_advance_events

/-- Insertion of one element into a list sorted by `≤` on ℚ. -/
def insertSorted (q : ℚ) : List ℚ → List ℚ
  | [] => [q]
  | x :: xs => if q ≤ x then q :: x :: xs else x :: insertSorted q xs

/-- `sorted` over a list of rationals (the multiset-preserving ascending
sort used for `sorted(e.latency_ms for e in events)`). -/
def sortRat : List ℚ → List ℚ
  | [] => []
  | x :: xs => insertSorted x (sortRat xs)

/-- Observer._latency_p95: nearest-rank selection with the index the source
computes, `max(0, int(len * 0.95) - 1)`.  `int(len * 0.95)` is the floor
`len * 95 / 100` (exact for every buffer size this system produces). -/
def latency_p95 (events : List PaymentEvent) : ℚ :=
  if events = [] then 0
  else
    let sorted_lat := sortRat (events.map (·.latency_ms))
    let idx := max 0 (events.length * 95 / 100 - 1 : ℤ)
    sorted_lat.getD idx.toNat 0

/-- Observer._success_rate. -/
def success_rate (events : List PaymentEvent) : ℚ :=
  if events = [] then 0
  else ((events.filter (fun e => e.outcome = PaymentOutcome.success)).length : ℚ)
    / (events.length : ℚ)

/-- Observer._retry_amplification. -/
def retry_amplification (events : List PaymentEvent) : ℚ :=
  if events = [] then 0
  else ((events.map (·.retries)).sum : ℚ) / (events.length : ℚ)

/-- Observer._attempt_amplification. -/
def attempt_amplification (events : List PaymentEvent) : ℚ :=
  let vals := events.filterMap (·.total_attempts)
  if vals = [] then 1
  else ((vals.sum : ℚ)) / (vals.length : ℚ)

/-- Observer._average_estimated_cost. -/
def average_estimated_cost (events : List PaymentEvent) : ℚ :=
  let vals := events.filterMap (·.estimated_cost)
  if vals = [] then 0
  else vals.sum / (vals.length : ℚ)

/-- Keys in first-appearance order (model of dict iteration order for a
defaultdict filled by one pass over the events). -/
def keysInOrder (pairs : List (String × ℚ)) : List String :=
  (pairs.map (·.1)).eraseDups

/-- Group the values associated to each key, keys in first-appearance order
(model of `defaultdict(list)` grouping). -/
def groupByKey (pairs : List (String × ℚ)) : List (String × List ℚ) :=
  (keysInOrder pairs).map (fun k => (k, (pairs.filter (fun kv => kv.1 = k)).map (·.2)))

/-- Observer._error_distribution. -/
def error_distribution (events : List PaymentEvent) : List (String × ℚ) :=
  let n := events.length
  if n = 0 then []
  else
    (groupByKey (events.map (fun e => (e.error_code.value, (1 : ℚ))))).map
      (fun kv => (kv.1, kv.2.sum / (n : ℚ)))

/-- Average of a list of rationals with the source's `if v else default`
fallback. -/
def avgOr (default : ℚ) (v : List ℚ) : ℚ :=
  if v = [] then default else v.sum / (v.length : ℚ)

/-- Observer._success_rate_by_issuer. -/
def success_rate_by_issuer (events : List PaymentEvent) : List (String × ℚ) :=
  (groupByKey (events.map
      (fun e => (e.issuer_bank, if e.outcome = PaymentOutcome.success then (1 : ℚ) else 0)))).map
    (fun kv => (kv.1, avgOr 0 kv.2))

/-- Observer._success_rate_by_merchant (events without a merchant id are
excluded, never defaulted). -/
def success_rate_by_merchant (events : List PaymentEvent) : List (String × ℚ) :=
  (groupByKey (events.filterMap
      (fun e => e.merchant_id.map
        (fun m => (m, if e.outcome = PaymentOutcome.success then (1 : ℚ) else 0))))).map
    (fun kv => (kv.1, avgOr 0 kv.2))

/-- Observer._attempt_amplification_by_merchant. -/
def attempt_amplification_by_merchant (events : List PaymentEvent) : List (String × ℚ) :=
  (groupByKey (events.filterMap
      (fun e => match e.merchant_id, e.total_attempts with
        | some m, some t => some (m, (t : ℚ))
        | _, _ => none))).map
    (fun kv => (kv.1, avgOr 1 kv.2))

/-- Observer._avg_cost_by_merchant. -/
def avg_cost_by_merchant (events : List PaymentEvent) : List (String × ℚ) :=
  (groupByKey (events.filterMap
      (fun e => match e.merchant_id, e.estimated_cost with
        | some m, some c => some (m, c)
        | _, _ => none))).map
    (fun kv => (kv.1, avgOr 0 kv.2))

/-- `min(e.timestamp for e in events)` (0 for the empty list, which the
callers exclude). -/
def minTimestamp (events : List PaymentEvent) : ℚ :=
  match events.map (·.timestamp) with
  | [] => 0
  | t :: ts => ts.foldl min t

/-- `max(e.timestamp for e in events)`. -/
def maxTimestamp (events : List PaymentEvent) : ℚ :=
  match events.map (·.timestamp) with
  | [] => 0
  | t :: ts => ts.foldl max t

/-- Shared body of metric computation over a window of events with a given
window id (the field-by-field construction both observer entry points
perform). -/
def computeMetrics (wid : String) (events : List PaymentEvent) : WindowMetrics :=
  { window_id := wid
    start_ts := minTimestamp events
    end_ts := maxTimestamp events
    success_rate := success_rate events
    p95_latency_ms := latency_p95 events
    retry_amplification := retry_amplification events
    error_distribution := error_distribution events
    success_rate_by_issuer := success_rate_by_issuer events
    sample_count := events.length
    success_rate_by_merchant := some (success_rate_by_merchant events)
    attempt_amplification_by_merchant := some (attempt_amplification_by_merchant events)
    avg_cost_by_merchant := some (avg_cost_by_merchant events)
    attempt_amplification := some (attempt_amplification events)
    average_estimated_cost := some (average_estimated_cost events) }

/-- Observer.get_partial_metrics: metrics on the current buffer, window id
`partial-{len}`; reads the state without changing it. -/
def Observer.getPartialMetrics (o : Observer) : Option WindowMetrics :=
  if o.buffer = [] then none
  else
    let events := takeLast o.window_size o.buffer
    some (computeMetrics ("partial-" ++ toString events.length) events)

/-- Observer.get_current_metrics: metrics on the current buffer, window id
`w-{counter}`; increments the window counter (a state mutation), so it is
returned together with the updated observer. -/
def Observer.getCurrentMetrics (o : Observer) : Option WindowMetrics × Observer :=
  if o.buffer = [] then (none, o)
  else
    let events := takeLast o.window_size o.buffer
    let o' := { o with window_counter := o.window_counter + 1 }
    (some (computeMetrics ("w-" ++ toString o'.window_counter) events), o')

/-! ## Reasoner (reasoner.py, deterministic path)

`reason` first tries the external LLM backend (`generate_hypothesis_llm`);
without an API key that call returns None, so the deterministic
`_heuristic_hypothesis` is the path of record and is what we embed. -/

/-- Is `p` a prefix of `l`? (executable helper for the string operations). -/
def isPrefixChars : List Char → List Char → Bool
  | [], _ => true
  | _ :: _, [] => false
  | p :: ps, c :: cs => p = c && isPrefixChars ps cs

/-- Does `pat` occur as a contiguous sublist of `l`? -/
def containsSub (l pat : List Char) : Bool :=
  isPrefixChars pat l ||
    (match l with
     | [] => false
     | _ :: t => containsSub t pat)

/-- Python `pat in s` for strings. -/
def strContains (s pat : String) : Bool :=
  containsSub s.data pat.data

/-- Python `s.upper()` (all strings this program uppercases are ASCII). -/
def strUpper (s : String) : String :=
  String.mk (s.data.map Char.toUpper)

/-- Left-to-right non-overlapping replacement of `pat` by `rep`, fuelled by
the input length (all patterns this program replaces are nonempty). -/
def replaceChars (pat rep : List Char) : ℕ → List Char → List Char
  | _, [] => []
  | 0, l => l
  | fuel + 1, c :: t =>
    if pat ≠ [] ∧ isPrefixChars pat (c :: t) = true then
      rep ++ replaceChars pat rep fuel ((c :: t).drop pat.length)
    else c :: replaceChars pat rep fuel t

/-- Python `s.replace(pat, rep)`. -/
def strReplace (s pat rep : String) : String :=
  String.mk (replaceChars pat.data rep.data s.data.length s.data)

def SUCCESS_RATE_DEGRADATION_THRESHOLD : ℚ := 0.75

def P95_LATENCY_SPIKE_MS : ℚ := 600

def RETRY_AMPLIFICATION_STORM : ℚ := 1.2

def ATTEMPT_AMPLIFICATION_STORM : ℚ := 1.5

def COST_ESCALATION_THRESHOLD : ℚ := 0.03

def MIN_SAMPLE_FOR_ACT : ℕ := 30

def CAUSE_INSUFFICIENT_SIGNAL : String := "INSUFFICIENT_SIGNAL"

/-- Python `max(values or [0])` for a list of rationals. -/
def maxOrZero : List ℚ → ℚ
  | [] => 0
  | v :: vs => vs.foldl max v

/-- reasoner._compute_uncertainty. -/
def compute_uncertainty (cause : String) (confidence : ℚ)
    (evidence_parts : List String) (metrics : WindowMetrics) : ℚ :=
  if evidence_parts = [] ∨ cause = "Unknown" ∨ cause = CAUSE_INSUFFICIENT_SIGNAL then
    min 1 (max (1 - confidence) 0.5)
  else
    let u : ℚ := 0
    let u := if metrics.sample_count < 50 then u + 0.25 else u
    let u := if metrics.sample_count < 100 then u + 0.15 else u
    let by_issuer := metrics.success_rate_by_issuer
    let degraded_issuers :=
      by_issuer.filter (fun kv => kv.2 < SUCCESS_RATE_DEGRADATION_THRESHOLD)
    let u := if degraded_issuers.length > 1 then u + 0.3 else u
    let err_dist := metrics.error_distribution
    let maxErr := maxOrZero (err_dist.map (fun kv => kv.2))
    let u := if err_dist.length > 3 ∧ maxErr < 0.5 then u + 0.2 else u
    min 1 u

/-- Python `min(items, key=lambda x: x[1])`: first pair with minimal value. -/
def minByVal (x : String × ℚ) (xs : List (String × ℚ)) : String × ℚ :=
  xs.foldl (fun best kv => if kv.2 < best.2 then kv else best) x

/-- reasoner._heuristic_hypothesis.  The numeric interpolations of the
source's evidence f-strings are rendered with `toString`; no claim inspects
the formatted digits. -/
def heuristic_hypothesis (metrics : WindowMetrics) : Hypothesis :=
  if metrics.sample_count < MIN_SAMPLE_FOR_ACT then
    { cause := CAUSE_INSUFFICIENT_SIGNAL
      confidence := 0
      evidence := "Sample count too low (" ++ toString metrics.sample_count
        ++ ") for reliable hypothesis."
      source := "heuristic"
      uncertainty := 1 }
  else
    let cause := "Unknown"
    let confidence : ℚ := 0
    let evidence_parts : List String := []
    -- single-issuer degradation (worst success rate)
    let (cause, confidence, evidence_parts) :=
      match metrics.success_rate_by_issuer with
      | [] => (cause, confidence, evidence_parts)
      | kv :: rest =>
        let worst := minByVal kv rest
        if worst.2 < SUCCESS_RATE_DEGRADATION_THRESHOLD then
          ("Issuer_" ++ worst.1 ++ "_Degradation", (0.85 : ℚ),
            evidence_parts ++ ["Success rate for " ++ worst.1 ++ " dropped to "
              ++ toString worst.2])
        else (cause, confidence, evidence_parts)
    -- legacy retry storm
    let (cause, confidence, evidence_parts) :=
      if metrics.retry_amplification ≥ RETRY_AMPLIFICATION_STORM
          ∧ metrics.success_rate < 0.7 ∧ confidence < 0.5 then
        ("Retry_Storm", (0.8 : ℚ),
          evidence_parts ++ ["Retry amplification " ++ toString metrics.retry_amplification
            ++ " with success rate " ++ toString metrics.success_rate])
      else (cause, confidence, evidence_parts)
    -- latency spike
    let (cause, confidence, evidence_parts) :=
      if metrics.p95_latency_ms ≥ P95_LATENCY_SPIKE_MS then
        if confidence < 0.5 then
          ("Latency_Spike", (0.75 : ℚ),
            evidence_parts ++ ["P95 latency " ++ toString metrics.p95_latency_ms ++ " ms"])
        else
          (cause, confidence,
            evidence_parts ++ ["P95 latency " ++ toString metrics.p95_latency_ms ++ " ms"])
      else (cause, confidence, evidence_parts)
    -- global success rate drop
    let (cause, confidence, evidence_parts) :=
      if metrics.success_rate < SUCCESS_RATE_DEGRADATION_THRESHOLD ∧ evidence_parts = [] then
        ("General_Degradation", (0.7 : ℚ),
          evidence_parts ++ ["Overall success rate " ++ toString metrics.success_rate])
      else (cause, confidence, evidence_parts)
    -- attempt + cost aware retry storm
    let (cause, confidence, evidence_parts) :=
      match metrics.attempt_amplification with
      | some amp =>
        if amp ≥ ATTEMPT_AMPLIFICATION_STORM ∧ metrics.success_rate < 0.8 then
          let baseConf : ℚ := 0.85
          let baseParts : List String :=
            ["Avg attempts per txn " ++ toString amp,
             "Success rate " ++ toString metrics.success_rate]
          match metrics.average_estimated_cost with
          | some c =>
            if c ≥ COST_ESCALATION_THRESHOLD then
              ("Retry_Storm_Detected", min 0.95 (baseConf + 0.05),
                baseParts ++ ["Avg cost per txn " ++ toString c])
            else ("Retry_Storm_Detected", baseConf, baseParts)
          | none => ("Retry_Storm_Detected", baseConf, baseParts)
        else (cause, confidence, evidence_parts)
      | none => (cause, confidence, evidence_parts)
    let evidence :=
      if evidence_parts = [] then "No strong pattern detected."
      else " ".intercalate evidence_parts
    -- no clear dominant degradation -> INSUFFICIENT_SIGNAL
    let (cause, evidence) :=
      if cause = "Unknown" ∧ confidence = 0 then
        (CAUSE_INSUFFICIENT_SIGNAL,
          "No strong pattern detected; insufficient signal to act (metrics stable or no clear degradation).")
      else (cause, evidence)
    { cause := cause
      confidence := confidence
      evidence := evidence
      source := "heuristic"
      uncertainty := compute_uncertainty cause confidence evidence_parts metrics }

/-- reasoner.reason: the LLM backend is external and, absent an API key or a
valid positive-confidence response, the source falls back to the
deterministic heuristic, which is the path embedded here. -/
def reason (metrics : WindowMetrics) : Hypothesis :=
  heuristic_hypothesis metrics

/-! ## Decision engine (decision.py) -/

def LOW_RISK_THRESHOLD : ℚ := 0.35

def HIGH_RISK_THRESHOLD : ℚ := 0.65

def MIN_CONFIDENCE_TO_ACT : ℚ := 0.6

def REPEATED_ISSUER_WINDOW : ℕ := 5

def RISK_BOOST_PER_REPEAT : ℚ := 0.08

def ROLLBACK_COUNT_FORCE_HUMAN : ℕ := 2

def SEVERE_DEGRADATION_SUCCESS_RATE : ℚ := 0.65

def UNCERTAINTY_HANDOVER_THRESHOLD : ℚ := 0.5

def MULTI_MERCHANT_DEGRADED_THRESHOLD : ℕ := 2

def MERCHANT_DEGRADED_SUCCESS_RATE : ℚ := 0.75

def SUCCESS_RATE_INTERVENE : ℚ := 0.78

def P95_LATENCY_INTERVENE_MS : ℚ := 500

def HIGH_COST_ESCALATION_THRESHOLD : ℚ := 0.05

def HIGH_ATTEMPT_AMPLIFICATION : ℚ := 1.6

/-- One entry of the orchestrator's `recent_causes` list
(a `{"cause": ..., "target": ...}` dict). -/
structure RecentCause where
  cause : String
  target : Option String
deriving DecidableEq, Repr

/-- The persisted / in-memory pending-escalation record
(the dict built by Executor._set_pending_escalation). -/
structure PendingState where
  active : Bool
  action : Action
  action_type : String
  target : Option String
  risk_score : ℚ
  reason : String
  status : String
  timestamp : ℚ
deriving DecidableEq, Repr

/-- The `context` dict the orchestrator passes to `decide`. -/
structure Context where
  recent_causes : List RecentCause := []
  rollback_count : ℕ := 0
  pending_approval : Option PendingState := none
deriving DecidableEq, Repr

/-- decision._risk_score. -/
def risk_score_fn (hypothesis : Hypothesis) (action_type : String)
    (_target : Option String) (risk_accumulation : ℚ) : ℚ :=
  if action_type = ActionType.NO_OP then 0
  else
    let base : ℚ :=
      if action_type = ActionType.RETRY_POLICY then 0.25
      else if action_type = ActionType.REROUTE then 0.55
      else if action_type = ActionType.SUPPRESS then 0.6
      else 0.5
    let risk := base * (1 - hypothesis.confidence * 0.4) + risk_accumulation
    max 0 (min 1 risk)

/-- decision._compute_risk_accumulation.  All entries of `recent_causes`
produced by this program are dicts, so only the dict branch of the source's
item inspection is reachable. -/
def compute_risk_accumulation (_hypothesis : Hypothesis)
    (target_issuer : Option String) (context : Option Context) : ℚ :=
  match context, target_issuer with
  | none, _ => 0
  | _, none => 0
  | some ctx, some ti =>
    if ti = "" then 0   -- Python falsiness of the empty string
    else
      let recent := takeLast REPEATED_ISSUER_WINDOW ctx.recent_causes
      let count :=
        (recent.filter (fun c =>
          c.target = some ti ∨ (c.target = none ∧ strContains c.cause ti))).length
      if count ≤ 1 then 0
      else min 0.25 ((count - 1 : ℕ) * RISK_BOOST_PER_REPEAT)

/-- decision._should_force_human_handover: (force, guardrail reasons). -/
def should_force_human_handover (metrics : WindowMetrics) (hypothesis : Hypothesis)
    (context : Option Context) : Bool × List String :=
  let reasons : List String := []
  let reasons :=
    if metrics.success_rate < SEVERE_DEGRADATION_SUCCESS_RATE then
      reasons ++ ["Severe degradation (success rate below threshold)"]
    else reasons
  let rollback_count := (context.map (·.rollback_count)).getD 0
  let reasons :=
    if rollback_count ≥ ROLLBACK_COUNT_FORCE_HUMAN then
      reasons ++ ["Multiple rollbacks (" ++ toString rollback_count
        ++ "); human approval required"]
    else reasons
  let reasons :=
    match metrics.average_estimated_cost with
    | some c =>
      if c ≥ HIGH_COST_ESCALATION_THRESHOLD then
        reasons ++ ["Economic risk (cost above escalation threshold)"]
      else reasons
    | none => reasons
  let by_merchant := metrics.success_rate_by_merchant.getD []
  let degraded_merchants :=
    by_merchant.filter (fun kv => kv.2 < MERCHANT_DEGRADED_SUCCESS_RATE)
  let reasons :=
    if degraded_merchants.length ≥ MULTI_MERCHANT_DEGRADED_THRESHOLD then
      reasons ++ ["Multiple merchants affected (" ++ toString degraded_merchants.length
        ++ "); human approval required to confirm scope and action."]
    else reasons
  let reasons :=
    if hypothesis.uncertainty ≥ UNCERTAINTY_HANDOVER_THRESHOLD then
      reasons ++ ["Uncertainty high (" ++ toString hypothesis.uncertainty
        ++ "); root cause unclear. Human approval required before acting."]
    else reasons
  (reasons.length > 0, reasons)

/-- Does `params["requires_human_approval"]` hold `True`?
(`action.params.get("requires_human_approval") is True` in the source). -/
def requiresHumanApproval (a : Action) : Bool :=
  a.params.get? "requires_human_approval" = some (PVal.pbool true)

/-- decision.decide.  `now` stands for the `time.time()` stamp placed on the
returned trace; the function is otherwise pure, exactly as the source. -/
def decide (metrics : WindowMetrics) (hypothesis : Hypothesis)
    (context : Option Context := none) (now : ℚ := 0) : DecisionTrace :=
  -- Guard: INSUFFICIENT_SIGNAL (explicit uncertainty)
  if hypothesis.cause ≠ "" ∧ strContains (strUpper hypothesis.cause) "INSUFFICIENT_SIGNAL" then
    { hypothesis := some hypothesis
      action :=
        { action_type := ActionType.NO_OP
          target := none
          params := []
          risk_score := 0
          reason := "Insufficient signal" }
      risk_score := 0
      reasoning := "Hypothesis: " ++ hypothesis.cause ++ " (confidence="
        ++ toString hypothesis.confidence ++ "). " ++ hypothesis.evidence
        ++ " No action taken."
      timestamp := now }
  else
    -- Default NO_OP
    let action : Action :=
      { action_type := ActionType.NO_OP
        target := none
        params := []
        risk_score := 0
        reason := "No intervention needed" }
    let reasoning := "Hypothesis: " ++ hypothesis.cause ++ " (confidence="
      ++ toString hypothesis.confidence ++ ", source=" ++ hypothesis.source ++ "). "
    -- Guard: low confidence
    if hypothesis.confidence < MIN_CONFIDENCE_TO_ACT then
      { hypothesis := some hypothesis
        action := action
        risk_score := 0
        reasoning := reasoning ++ "Confidence below threshold; no action taken."
        timestamp := now }
    else
      let fh := should_force_human_handover metrics hypothesis context
      let force_human := fh.1
      let guardrail_reasons := fh.2
      let attempt_amp := metrics.attempt_amplification
      let avg_cost := metrics.average_estimated_cost
      let cause := strUpper hypothesis.cause
      -- cause-directed action selection
      let (action, reasoning) :=
        if strContains cause "ISSUER_" ∧ strContains cause "_DEGRADATION" then
          -- the source computes `"_".join(cause.replace("ISSUER_", "")
          -- .replace("_DEGRADATION", "").split("_"))`; splitting on "_" and
          -- re-joining with "_" is the identity, leaving the replaced string
          let target_issuer := strReplace (strReplace cause "ISSUER_" "") "_DEGRADATION" ""
          let target_issuer :=
            if target_issuer = "" then
              match metrics.success_rate_by_issuer with
              | [] => target_issuer
              | kv :: rest => (minByVal kv rest).1
            else target_issuer
          if target_issuer ≠ "" then
            let risk_accum := compute_risk_accumulation hypothesis (some target_issuer) context
            let action : Action :=
              { action_type := ActionType.REROUTE
                target := some target_issuer
                params := [("weight_reduce", PVal.pnum 0.5)]
                risk_score := risk_score_fn hypothesis ActionType.REROUTE
                  (some target_issuer) risk_accum
                reason := "Reroute traffic from degraded issuer " ++ target_issuer }
            let (action, reasoning) :=
              if force_human then
                ({ action with params :=
                    action.params.set "requires_human_approval" (PVal.pbool true) },
                 reasoning ++ " Forced human approval: "
                   ++ "; ".intercalate guardrail_reasons ++ ". ")
              else (action, reasoning)
            (action, reasoning ++ "Issuer-level degradation detected; proposing reroute from "
              ++ target_issuer ++ ".")
          else (action, reasoning)
        else if strContains cause "RETRY_STORM" then
          let risk_accum := compute_risk_accumulation hypothesis none context
          let action : Action :=
            { action_type := ActionType.RETRY_POLICY
              target := none
              params := [("max_retries", PVal.pnum 2), ("backoff_scale", PVal.pnum 1.5),
                ("intent", PVal.pstr "reduce_retry_amplification")]
              risk_score := risk_score_fn hypothesis ActionType.RETRY_POLICY none risk_accum
              reason := "Retry storm detected; reduce retries to limit cost and latency" }
          let reasoning := reasoning ++ "Retry storm detected; proposing retry policy tightening."
          if force_human then
            ({ action with params :=
                action.params.set "requires_human_approval" (PVal.pbool true) },
             reasoning ++ " Forced human approval: "
               ++ "; ".intercalate guardrail_reasons ++ ". ")
          else if (match avg_cost with
                   | some c => Decidable.decide (c ≥ HIGH_COST_ESCALATION_THRESHOLD)
                   | none => false)
              || (match attempt_amp with
                  | some a => Decidable.decide (a ≥ HIGH_ATTEMPT_AMPLIFICATION)
                  | none => false) then
            ({ action with params :=
                action.params.set "requires_human_approval" (PVal.pbool true) },
             reasoning ++ " Elevated cost or retry amplification detected; "
               ++ "human approval required before applying.")
          else (action, reasoning)
        else if strContains cause "LATENCY_SPIKE" then
          let action : Action :=
            { action_type := ActionType.SUPPRESS
              target := some "heavy_path"
              params := [("duration_sec", PVal.pnum 60)]
              risk_score := risk_score_fn hypothesis ActionType.SUPPRESS (some "heavy_path") 0
              reason := "Latency spike detected; temporarily suppress heavy path" }
          (action, reasoning ++ "Latency spike detected; proposing temporary suppression.")
        else if strContains cause "GENERAL_DEGRADATION" ∨ strContains cause "DEGRADATION" then
          let action : Action :=
            { action_type := ActionType.RETRY_POLICY
              target := none
              params := [("max_retries", PVal.pnum 2)]
              risk_score := risk_score_fn hypothesis ActionType.RETRY_POLICY none 0
              reason := "General degradation; conservative retry reduction" }
          (action, reasoning
            ++ "General degradation detected; proposing conservative retry adjustment.")
        else (action, reasoning)
      -- final risk assignment (with accumulation)
      let risk_accum := compute_risk_accumulation hypothesis action.target context
      let action :=
        { action with risk_score :=
            risk_score_fn hypothesis action.action_type action.target risk_accum }
      let action :=
        if force_human ∧ action.action_type ≠ ActionType.NO_OP then
          { action with params :=
              action.params.set "requires_human_approval" (PVal.pbool true) }
        else action
      -- pending state check (prevent thrashing)
      let pending := (context.map (·.pending_approval)).getD none
      match pending with
      | some p =>
        if action.action_type ≠ ActionType.NO_OP
            ∧ action.action_type = p.action_type ∧ action.target = p.target then
          { hypothesis := some hypothesis
            action :=
              { action_type := ActionType.NO_OP
                target := none
                params := []
                risk_score := 0
                reason := "Waiting for human approval" }
            risk_score := 0
            reasoning := reasoning ++ " [WAITING] Identical action pending human approval."
            timestamp := now }
        else
          { hypothesis := some hypothesis
            action := action
            risk_score := action.risk_score
            reasoning := reasoning
            timestamp := now }
      | none =>
        { hypothesis := some hypothesis
          action := action
          risk_score := action.risk_score
          reasoning := reasoning
          timestamp := now }

/-! ## Executor (executor.py)

The simulator-control callback is an external fire-and-forget command
channel (`set_simulator_control`); `_apply_action` issues a command and then
`return True` unconditionally, so in the embedding applying an action always
succeeds and only the executor's own state is tracked.  The persisted
`pending_approval.json` written by state_writer.write_pending_approval and
read by read_pending_approval is modelled as the `disk` field. -/

def AUTO_EXECUTE_RISK_THRESHOLD : ℚ := 0.45

def ROLLBACK_SUCCESS_RATE_DROP : ℚ := 0.08

def ROLLBACK_LATENCY_INCREASE_FRACTION : ℚ := 0.25

/-- The per-active-action metadata dict `{"applied_at": ..., "status": ...}`. -/
structure ActiveMeta where
  applied_at : ℚ
  status : String
deriving DecidableEq, Repr

/-- Executor state (fields of executor.Executor.__init__) plus the persisted
pending-approval file as `disk`. -/
structure Executor where
  active_actions : List (DecisionTrace × ActiveMeta) := []
  baseline_metrics : Option WindowMetrics := none
  rollback_log : List String := []
  execution_log : List String := []
  pending_escalation : Option PendingState := none
  disk : Option PendingState := none
deriving DecidableEq, Repr

/-- state_writer.read_pending_approval (empty/absent file reads as None). -/
def readPendingApproval (e : Executor) : Option PendingState :=
  e.disk

/-- Python `str(target)` for an optional target (None prints as "None"). -/
def optStr : Option String → String
  | some s => s
  | none => "None"

/-- Executor._set_pending_escalation: store the pending dict and persist it. -/
def Executor.setPendingEscalation (e : Executor) (action : Action) (reason : String)
    (ts : ℚ) : Executor :=
  let p : PendingState :=
    { active := true
      action := action
      action_type := action.action_type
      target := action.target
      risk_score := action.risk_score
      reason := reason
      status := "pending"
      timestamp := ts }
  { e with pending_escalation := some p, disk := some p }

/-- Executor.execute.  Returns `(executed, message)` plus the new state; `ts`
stands for `time.time()` at the applied_at stamp. -/
def Executor.execute (e : Executor) (trace : DecisionTrace) (current_metrics : WindowMetrics)
    (ts : ℚ) : (Bool × String) × Executor :=
  let action := trace.action
  if action.action_type = ActionType.NO_OP then
    ((true, "NO_OP"), e)  -- NO_OP is 'executed' successfully (by doing nothing)
  else if requiresHumanApproval action then
    let msg := "[HUMAN-APPROVAL-REQUIRED] Action requires human approval: "
      ++ action.action_type ++ " target=" ++ optStr action.target
      ++ " (risk=" ++ toString action.risk_score ++ ")"
    let e := { e with execution_log := e.execution_log ++ [msg] }
    let e := e.setPendingEscalation action "Human approval required (cost/retry guardrail)" ts
    ((false, msg), e)
  else if action.risk_score ≥ AUTO_EXECUTE_RISK_THRESHOLD then
    let msg := "[HUMAN-IN-THE-LOOP] High-risk action not auto-executed: "
      ++ action.action_type ++ " target=" ++ optStr action.target
      ++ " risk=" ++ toString action.risk_score
    let e := { e with execution_log := e.execution_log ++ [msg] }
    let e := e.setPendingEscalation action "High risk; human approval required" ts
    ((false, msg), e)
  else
    -- store baseline for rollback checks
    let e :=
      if e.active_actions = [] then { e with baseline_metrics := some current_metrics }
      else e
    let applied := true  -- _apply_action always returns True
    if applied then
      let e := { e with active_actions :=
        e.active_actions ++ [(trace, ({ applied_at := ts, status := "executed" } : ActiveMeta))] }
      let msg := "Executed: " ++ action.action_type ++ " target=" ++ optStr action.target
      (((true, msg)), { e with execution_log := e.execution_log ++ [msg] })
    else
      let msg := "Failed to execute: " ++ action.action_type
      ((false, msg), { e with execution_log := e.execution_log ++ [msg] })

/-- Executor.check_rollback: regression check against the stored baseline;
on regression every active action is reverted, one message per action, and
the active list and baseline are cleared together. -/
def Executor.checkRollback (e : Executor) (current_metrics : WindowMetrics) :
    List String × Executor :=
  if e.active_actions = [] ∨ e.baseline_metrics = none then ([], e)
  else
    match e.baseline_metrics with
    | none => ([], e)
    | some base =>
      let cur := current_metrics
      let success_dropped :=
        base.success_rate - cur.success_rate ≥ ROLLBACK_SUCCESS_RATE_DROP
      let latency_increased :=
        base.p95_latency_ms > 0
          ∧ (cur.p95_latency_ms - base.p95_latency_ms) / base.p95_latency_ms
            ≥ ROLLBACK_LATENCY_INCREASE_FRACTION
      if success_dropped ∨ latency_increased then
        let rollbacks := e.active_actions.map (fun ta =>
          "Rollback: " ++ ta.1.action.action_type
            ++ " (success_drop=" ++ toString (Decidable.decide success_dropped)
            ++ ", latency_inc=" ++ toString (Decidable.decide latency_increased) ++ ")")
        (rollbacks,
          { e with
              rollback_log := e.rollback_log ++ rollbacks
              active_actions := []
              baseline_metrics := none })
      else ([], e)

/-- Executor.get_escalation_state (a copy of the pending dict, or None). -/
def Executor.getEscalationState (e : Executor) : Option PendingState :=
  e.pending_escalation

/-- Executor.get_rollback_count. -/
def Executor.getRollbackCount (e : Executor) : ℕ :=
  e.rollback_log.length

/-- Result triple of Executor.check_and_apply_approval:
`(processed_something, message, approved_action)`. -/
structure ApprovalResult where
  processed : Bool
  message : Option String
  approved_action : Option Action
deriving DecidableEq, Repr

/-- Executor.check_and_apply_approval. -/
def Executor.checkAndApplyApproval (e : Executor) (metrics : WindowMetrics) (ts : ℚ) :
    ApprovalResult × Executor :=
  -- if no in-memory escalation, check disk in case a restart lost memory
  let step1 : Option Executor :=
    match e.pending_escalation with
    | some _ => some e
    | none =>
      match readPendingApproval e with
      | some d => if d.status = "pending" then some { e with pending_escalation := some d }
                  else none
      | none => none
  match step1 with
  | none => ({ processed := false, message := none, approved_action := none }, e)
  | some e =>
    -- re-read disk to see if status changed
    match readPendingApproval e with
    | none =>
      -- maybe cleared manually?
      ({ processed := false, message := none, approved_action := none },
        { e with pending_escalation := none })
    | some persisted =>
      if persisted.status = "approved" then
        -- reconstruct action and execute
        let action := persisted.action
        let trace : DecisionTrace :=
          { hypothesis := none
            action := action
            risk_score := action.risk_score
            reasoning := "Human approved via dashboard"
            timestamp := ts }
        let e := { e with baseline_metrics := some metrics }  -- baseline at approval time
        let success := true  -- _apply_action always returns True
        let msg := "Human APPROVED: " ++ action.action_type
          ++ " target=" ++ optStr action.target
        let e := { e with execution_log := e.execution_log ++ [msg] }
        let e :=
          if success then
            { e with active_actions :=
                e.active_actions ++ [(trace, { applied_at := ts, status := "executed" })] }
          else e
        ({ processed := true, message := some msg, approved_action := some action },
          { e with disk := none, pending_escalation := none })
      else if persisted.status = "rejected" then
        let msg := "Human REJECTED the proposed action."
        let e := { e with execution_log := e.execution_log ++ [msg] }
        ({ processed := true, message := some msg, approved_action := none },
          { e with disk := none, pending_escalation := none })
      else
        ({ processed := false, message := none, approved_action := none }, e)  -- still pending

/-- Executor.clear_escalation. -/
def Executor.clearEscalation (e : Executor) : Executor :=
  { e with pending_escalation := none, disk := none }

/-! ## Learner (learner.py) -/

def HELPED_SUCCESS_IMPROVEMENT : ℚ := 0.03

def HELPED_LATENCY_REDUCTION : ℚ := 0.15

def HARMFUL_COST_INCREASE : ℚ := 0.04

def HARMFUL_ATTEMPT_AMPLIFICATION : ℚ := 1.6

def MAX_OUTCOME_RECORDS : ℕ := 500

/-- The helped/hurt/neutral counter dict per action type. -/
structure ActionStats where
  helped : ℕ := 0
  hurt : ℕ := 0
  neutral : ℕ := 0
deriving DecidableEq, Repr

/-- Learner state (fields of learner.Learner.__init__). -/
structure Learner where
  outcomes : List OutcomeRecord := []
  context_before_action : Option MetricsSnapshot := none
  action_pending : Option Action := none
  action_stats : List (String × ActionStats) := []
deriving DecidableEq, Repr

/-- learner._metrics_snapshot. -/
def metrics_snapshot (m : WindowMetrics) : MetricsSnapshot :=
  { success_rate := m.success_rate
    p95_latency_ms := m.p95_latency_ms
    retry_amplification := m.retry_amplification
    sample_count := m.sample_count
    average_estimated_cost := m.average_estimated_cost
    attempt_amplification := m.attempt_amplification }

/-- learner._evaluate_helped: returns (helped, learning_score) with
learning_score ∈ {+1, 0, -1}. -/
def evaluate_helped (before after : MetricsSnapshot) (rollback_applied : Bool) :
    Bool × ℚ :=
  if rollback_applied then (false, -1)
  else
    let sr_before := before.success_rate
    let sr_after := after.success_rate
    -- Python `before.get("p95_latency_ms") or 0`
    let lat_before := before.p95_latency_ms
    let lat_after := after.p95_latency_ms
    let sr_improved := sr_after - sr_before ≥ HELPED_SUCCESS_IMPROVEMENT
    let lat_reduced := lat_before > 0
      ∧ (lat_before - lat_after) / lat_before ≥ HELPED_LATENCY_REDUCTION
    -- cost & retry harm detection
    if (match after.average_estimated_cost with
        | some c => Decidable.decide (c ≥ HARMFUL_COST_INCREASE)
        | none => false) then (false, -1)
    else if (match after.attempt_amplification with
             | some a => Decidable.decide (a ≥ HARMFUL_ATTEMPT_AMPLIFICATION)
             | none => false) then (false, -1)
    else if sr_improved ∨ lat_reduced then (true, 1)
    else (false, 0)

/-- learner.Learner.record_decision_context. -/
def Learner.recordDecisionContext (l : Learner) (metrics : WindowMetrics)
    (action : Action) : Learner :=
  if action.action_type = "no_op" then l
  else
    { l with
        context_before_action := some (metrics_snapshot metrics)
        action_pending := some action }

/-- Update of `self._action_stats[a_type]` by the learning score sign. -/
def bumpStats (stats : List (String × ActionStats)) (a_type : String)
    (score : ℚ) : List (String × ActionStats) :=
  let base := (stats.lookup a_type).getD ({ helped := 0, hurt := 0, neutral := 0 } : ActionStats)
  let updated :=
    if score > 0 then { base with helped := base.helped + 1 }
    else if score < 0 then { base with hurt := base.hurt + 1 }
    else { base with neutral := base.neutral + 1 }
  (stats.filter (fun kv => kv.1 ≠ a_type)) ++ [(a_type, updated)]

/-- learner.Learner.record_outcome: classify the pending (context, action)
against metrics_after and append an OutcomeRecord; if no decision context is
pending the state is returned unchanged. -/
def Learner.recordOutcome (l : Learner) (metrics_after : WindowMetrics)
    (rollback_applied : Bool := false) : Learner :=
  match l.context_before_action, l.action_pending with
  | some ctx, some act =>
    let outcome_metrics := metrics_snapshot metrics_after
    let hl := evaluate_helped ctx outcome_metrics rollback_applied
    let record : OutcomeRecord :=
      { context_snapshot := ctx
        action := act
        outcome_metrics := outcome_metrics
        helped := hl.1
        rollback_applied := rollback_applied }
    let outcomes := l.outcomes ++ [record]
    let outcomes :=
      if outcomes.length > MAX_OUTCOME_RECORDS then takeLast MAX_OUTCOME_RECORDS outcomes
      else outcomes
    { l with
        outcomes := outcomes
        action_stats := bumpStats l.action_stats act.action_type hl.2
        context_before_action := none
        action_pending := none }
  | _, _ => l

/-- learner.Learner.cancel_pending. -/
def Learner.cancelPending (l : Learner) : Learner :=
  { l with context_before_action := none, action_pending := none }

/-! ## Orchestrator (agent.py)

`Agent.run_cycle` is embedded as a state-passing function returning the new
agent state together with the list of `write_action` publications the cycle
performed (the decision-timeline records whose `outcome` tag the spec talks
about).  The other dashboard publications (`write_metrics`,
`write_hypothesis`, `write_control_state`) and console prints write no agent
state and are elided; `time.time()` becomes the `ts` argument (the source
reads the clock twice in one cycle, at entry and before the debounce check,
an interval that nothing in the cycle depends on). -/

def UNCERTAINTY_THRESHOLD : ℚ := 0.5

/-- agent.MIN_CONFIDENCE_TO_ACT (the orchestrator's own copy of the
decision-engine constant). -/
def AGENT_MIN_CONFIDENCE_TO_ACT : ℚ := 0.6

def RISK_ACCUMULATION_SAME_CAUSE_COUNT : ℕ := 2

def DEBOUNCE_SEC : ℚ := 3

def OUTCOME_EXECUTED : String := "executed"

def OUTCOME_BLOCKED : String := "blocked"

def OUTCOME_SKIPPED_COOLDOWN : String := "skipped_cooldown"

def OUTCOME_ROLLED_BACK : String := "rolled_back"

/-- One `write_action` publication (a record of the decision timeline). -/
structure ActionWrite where
  action_type : String
  target : Option String
  risk_score : ℚ
  reason : String
  reasoning : String
  executed : Bool
  message : String
  ts : ℚ
  outcome : String
  guardrails_triggered : List String
  append_to_history : Bool
deriving DecidableEq, Repr

/-- Agent state (fields of agent.Agent.__init__).  `agent_baseline_metrics`
is the `self._baseline_metrics` attribute run_cycle assigns in its executed
branch (never read back). -/
structure Agent where
  observer : Observer := {}
  executor : Executor := {}
  learner : Learner := {}
  window_events_between_cycles : ℕ := 50
  last_metrics : Option WindowMetrics := none
  last_action_executed : Bool := false
  pending_outcome : Bool := false
  cycle_count : ℕ := 0
  recent_causes : List RecentCause := []
  max_recent_causes : ℕ := 10
  last_executed_action_key : Option (String × Option String) := none
  last_executed_cycle : ℤ := -1
  cooldown_until_cycle : Option ℕ := none
  cooldown_cycles : ℕ := 2
  last_written_action_key : Option (String × Option String × String) := none
  last_executed_trace : Option DecisionTrace := none
  last_decision_ts : ℚ := 0
  last_decision_action_key : Option (String × Option String) := none
  last_decision_metrics_snapshot : Option (ℚ × ℚ × ℕ) := none
  last_decision_hypothesis_cause : Option String := none
  agent_baseline_metrics : Option WindowMetrics := none
deriving DecidableEq, Repr

/-- Agent.run_cycle: Reason (if hypothesis not provided) → Decide → Act.
Returns the updated agent and the cycle's write_action publications. -/
def Agent.runCycle (a0 : Agent) (metrics : WindowMetrics) (hyp? : Option Hypothesis)
    (ts : ℚ) : Agent × List ActionWrite :=
  let a := { a0 with cycle_count := a0.cycle_count + 1, last_action_executed := false }
  let hypothesis := match hyp? with | some h => h | none => reason metrics
  -- write_hypothesis: dashboard publication only
  -- expire cooldown
  let a :=
    match a.cooldown_until_cycle with
    | some c => if a.cycle_count > c then { a with cooldown_until_cycle := none } else a
    | none => a
  -- decision context for risk accumulation and forced handover
  let pending := a.executor.getEscalationState
  let context : Context :=
    { recent_causes := a.recent_causes
      rollback_count := a.executor.getRollbackCount
      pending_approval :=
        match pending with
        | some p => if p.active then some p else none
        | none => none }
  -- poll for approval on pending actions
  let approval := a.executor.checkAndApplyApproval metrics ts
  let ares := approval.1
  let a := { a with executor := approval.2 }
  if ares.processed then
    -- `"APPROVED" in approval_msg and approved_action`: the APPROVED message
    -- is produced exactly when an approved action is returned
    match ares.approved_action with
    | some act =>
      ({ a with
          last_action_executed := true
          pending_outcome := true
          last_decision_ts := ts
          last_executed_action_key := some (act.action_type, act.target)
          last_executed_cycle := (a.cycle_count : ℤ) }, [])
    | none =>
      -- rejected
      ({ a with learner := a.learner.cancelPending }, [])
  else
    -- write_metrics: dashboard publication only
    -- WAITING_FOR_HUMAN: freeze the decision loop while an escalation is pending
    if (match pending with | some p => p.active | none => false) then
      (a, [])
    else
      let trace := decide metrics hypothesis (some context) ts
      -- track recent causes for next cycle
      let a :=
        let rc := a.recent_causes
          ++ [{ cause := hypothesis.cause, target := trace.action.target }]
        { a with recent_causes :=
            if rc.length > a.max_recent_causes then takeLast a.max_recent_causes rc
            else rc }
      let guardrails_triggered :=
        if requiresHumanApproval trace.action then ["Human approval required"] else []
      if trace.action.action_type = ActionType.NO_OP then
        let outcome := OUTCOME_EXECUTED  -- no_op is always "taken"
        let current_key := ("no_op", (none : Option String), outcome)
        let append := some current_key ≠ a.last_written_action_key
        let w : ActionWrite :=
          { action_type := "no_op"
            target := none
            risk_score := 0
            reason := trace.action.reason
            reasoning := trace.reasoning
            executed := false
            message := "No intervention needed"
            ts := ts
            outcome := outcome
            guardrails_triggered := guardrails_triggered
            append_to_history := append }
        let a := if append then { a with last_written_action_key := some current_key } else a
        (a, [w])
      else
        -- debouncing: same action+target within cooldown cycles or seconds
        let action_key := (trace.action.action_type, trace.action.target)
        let now := ts
        let in_cycle_cooldown :=
          a.last_executed_action_key = some action_key
            ∧ (a.cycle_count : ℤ) - a.last_executed_cycle ≤ (a.cooldown_cycles : ℤ)
        let in_time_cooldown :=
          a.last_decision_action_key = some action_key
            ∧ now - a.last_decision_ts < DEBOUNCE_SEC
            ∧ a.last_action_executed = true
        if in_cycle_cooldown ∨ in_time_cooldown then
          let a := { a with
            cooldown_until_cycle := some (a.cycle_count + a.cooldown_cycles)
            learner := a.learner.cancelPending }
          let outcome := OUTCOME_SKIPPED_COOLDOWN
          let msg := "[COOLDOWN] Skipped: " ++ trace.action.action_type
            ++ " target=" ++ optStr trace.action.target ++ " (same action within cooldown)"
          let current_key := (trace.action.action_type, trace.action.target, outcome)
          let append := some current_key ≠ a.last_written_action_key
          let w : ActionWrite :=
            { action_type := trace.action.action_type
              target := trace.action.target
              risk_score := trace.action.risk_score
              reason := trace.action.reason
              reasoning := trace.reasoning
              executed := false
              message := msg
              ts := ts
              outcome := outcome
              guardrails_triggered := ["Cooldown active"]
              append_to_history := append }
          let a := if append then { a with last_written_action_key := some current_key } else a
          (a, [w])
        else
          -- act: execute only if low risk; else human-in-the-loop
          let er := a.executor.execute trace metrics ts
          let executed := er.1.1
          let msg := er.1.2
          let a := { a with executor := er.2 }
          let outcome := if executed then OUTCOME_EXECUTED else OUTCOME_BLOCKED
          let outcome :=
            if trace.action.action_type = ActionType.NO_OP then OUTCOME_EXECUTED else outcome
          -- update state for cooldowns: only executed non-no_op actions start one
          let a :=
            if executed ∧ trace.action.action_type ≠ ActionType.NO_OP then
              { a with
                  last_action_executed := true
                  last_executed_action_key := some action_key
                  last_executed_cycle := (a.cycle_count : ℤ)
                  last_decision_ts := now
                  last_decision_action_key := some action_key
                  pending_outcome := true
                  agent_baseline_metrics := some metrics }
            else if ¬ executed then
              { a with last_action_executed := false }
            else
              { a with last_action_executed := true }
          -- explainability snapshots
          let a := { a with
            last_decision_metrics_snapshot :=
              some (metrics.success_rate, metrics.p95_latency_ms, metrics.sample_count)
            last_decision_hypothesis_cause := some hypothesis.cause }
          let current_key := (trace.action.action_type, trace.action.target, outcome)
          let append := some current_key ≠ a.last_written_action_key
          let w : ActionWrite :=
            { action_type := trace.action.action_type
              target := trace.action.target
              risk_score := trace.action.risk_score
              reason := trace.action.reason
              reasoning := trace.reasoning
              executed := executed
              message := msg
              ts := ts
              outcome := outcome
              guardrails_triggered := guardrails_triggered
              append_to_history := append }
          let a := if append then { a with last_written_action_key := some current_key } else a
          if executed then
            -- (reroute also clears the simulator failure mode: external effect)
            ({ a with
                last_action_executed := true
                last_executed_trace := some trace
                learner := a.learner.recordDecisionContext metrics trace.action }, [w])
          else
            ({ a with
                learner := a.learner.cancelPending
                last_executed_trace := none }, [w])

/-- Agent.check_rollback_and_learn: rollback check, then outcome learning
when the last action was executed; the ROLLED_BACK timeline write is
returned like run_cycle's writes. -/
def Agent.checkRollbackAndLearn (a : Agent) (metrics : WindowMetrics) (ts : ℚ) :
    Agent × List ActionWrite :=
  let rb := a.executor.checkRollback metrics
  let rollbacks := rb.1
  let a := { a with executor := rb.2 }
  let (a, writes) :=
    match a.last_executed_trace with
    | some trace =>
      if rollbacks ≠ [] then
        let w : ActionWrite :=
          { action_type := trace.action.action_type
            target := trace.action.target
            risk_score := trace.action.risk_score
            reason := trace.action.reason
            reasoning := "Rolled back due to metric regression"
            executed := false
            message := "Rollback: " ++ trace.action.action_type
              ++ " target=" ++ optStr trace.action.target
            ts := ts
            outcome := OUTCOME_ROLLED_BACK
            guardrails_triggered := ["Rollback applied"]
            append_to_history := true }
        ({ a with
            last_written_action_key :=
              some (trace.action.action_type, trace.action.target, OUTCOME_ROLLED_BACK)
            last_executed_trace := none }, [w])
      else (a, [])
    | none => (a, [])
  if a.last_action_executed then
    ({ a with learner := a.learner.recordOutcome metrics (rollbacks.length > 0) }, writes)
  else (a, writes)

/-! ## Shared helper lemmas and sample data -/

section RatEval

/- Batteries marks the rational-number operations `@[irreducible]`; concrete
evaluation of the embedded program needs them unfolded. -/
attribute [local semireducible] Rat.ofScientific Rat.mul Rat.add Rat.sub Rat.inv

theorem insertSorted_length (q : ℚ) (l : List ℚ) :
    (insertSorted q l).length = l.length + 1 := by
  induction l with
  | nil => rfl
  | cons x xs ih =>
    simp only [insertSorted]
    split
    · simp
    · simp [ih]

theorem sortRat_length (l : List ℚ) : (sortRat l).length = l.length := by
  induction l with
  | nil => rfl
  | cons x xs ih => simp [sortRat, insertSorted_length, ih]

/-- A minimal payment event used for concrete test inputs. -/
def mkEvent (lat : ℚ) : PaymentEvent :=
  { event_id := "e"
    issuer_bank := "BANK"
    payment_method := "card"
    latency_ms := lat
    retries := 0
    outcome := PaymentOutcome.success
    error_code := ErrorCode.none_ }

/-! ## Claim C2: rollback detection and atomic clearing -/

/-- C2: with at least one active action and a stored baseline,
`check_rollback` either detects regression (success-rate drop ≥ 0.08 or p95
rise ≥ 25% of a positive baseline p95), reverts every active action (one
message per action) and clears the active list and the baseline together, or
it detects no regression and leaves the state unchanged with an empty
result. -/
theorem C2_check_rollback_atomic (e : Executor) (base cur : WindowMetrics)
    (hact : e.active_actions ≠ []) (hbase : e.baseline_metrics = some base) :
    (((base.success_rate - cur.success_rate ≥ ROLLBACK_SUCCESS_RATE_DROP)
        ∨ (base.p95_latency_ms > 0
            ∧ (cur.p95_latency_ms - base.p95_latency_ms) / base.p95_latency_ms
              ≥ ROLLBACK_LATENCY_INCREASE_FRACTION)) →
      (e.checkRollback cur).1.length = e.active_actions.length
        ∧ (e.checkRollback cur).2.active_actions = []
        ∧ (e.checkRollback cur).2.baseline_metrics = none)
    ∧ (¬ ((base.success_rate - cur.success_rate ≥ ROLLBACK_SUCCESS_RATE_DROP)
        ∨ (base.p95_latency_ms > 0
            ∧ (cur.p95_latency_ms - base.p95_latency_ms) / base.p95_latency_ms
              ≥ ROLLBACK_LATENCY_INCREASE_FRACTION)) →
      (e.checkRollback cur).1 = [] ∧ (e.checkRollback cur).2 = e) := by
  unfold Executor.checkRollback
  rw [if_neg (by simp [hact, hbase])]
  split
  · simp_all
  · rename_i base' heq
    rw [hbase] at heq
    cases heq
    constructor
    · intro hreg
      rw [if_pos hreg]
      simp
    · intro hreg
      rw [if_neg hreg]
      simp

/-- Baseline metrics for the C2 witness (success rate 0.9). -/
def c2base : WindowMetrics :=
  { window_id := "w-1", start_ts := 0, end_ts := 1, success_rate := 0.9
    p95_latency_ms := 100, retry_amplification := 0, error_distribution := []
    success_rate_by_issuer := [], sample_count := 50 }

/-- Concrete executor state for the C2 witness: one active action and the
stored baseline. -/
def c2exec : Executor :=
  { active_actions :=
      [({ hypothesis := none
          action := { action_type := "reroute", target := some "BANK" }
          risk_score := 0.3
          reasoning := "r" },
        { applied_at := 0, status := "executed" })]
    baseline_metrics := some c2base }

/-- Current-window metrics for the C2 witness (success rate dropped to 0.7,
a drop of 0.2 ≥ 0.08 ⇒ regression). -/
def c2cur : WindowMetrics :=
  { window_id := "w-2", start_ts := 1, end_ts := 2, success_rate := 0.7
    p95_latency_ms := 100, retry_amplification := 0, error_distribution := []
    success_rate_by_issuer := [], sample_count := 50 }

/-- Witness for C2 at a concrete regressing input. -/
theorem C2_check_rollback_atomic_witness :
    (c2exec.checkRollback c2cur).1.length = c2exec.active_actions.length
      ∧ (c2exec.checkRollback c2cur).2.active_actions = []
      ∧ (c2exec.checkRollback c2cur).2.baseline_metrics = none := by
  have h := C2_check_rollback_atomic c2exec c2base c2cur (by simp [c2exec]) rfl
  exact h.1 (Or.inl (by unfold c2base c2cur; decide))

/-! ## Claim C3: p95 nearest-rank index -/

/-- Counterexample to C3 as stated: for the two-event sample with latencies
10 and 20, the claimed index `floor(n·0.95) = floor(1.9) = 1` selects 20,
but the code computes index `max(0, floor(n·0.95) - 1) = 0` and returns
10. -/
theorem C3_counterexample :
    latency_p95 [mkEvent 10, mkEvent 20] = 10
      ∧ (sortRat ([mkEvent 10, mkEvent 20].map (fun e => e.latency_ms))).getD
          ([mkEvent 10, mkEvent 20].length * 95 / 100) 0 = 20
      ∧ ([mkEvent 10, mkEvent 20].length * 95 / 100 : ℕ) = 1 := by
  refine ⟨?_, ?_, ?_⟩ <;> decide

/-- C3 as amended: for every non-empty buffer of n events, the p95 latency
is the element of the sorted latency sample at nearest-rank index
`floor(n·0.95) - 1`, clamped to be at least 0 (an in-range index of the
sorted sample). -/
theorem C3_p95_nearest_rank (events : List PaymentEvent) (h : events ≠ []) :
    ∃ hlt : (max 0 ((events.length : ℤ) * 95 / 100 - 1)).toNat
        < (sortRat (events.map (fun e => e.latency_ms))).length,
      latency_p95 events
        = (sortRat (events.map (fun e => e.latency_ms))).get
            ⟨(max 0 ((events.length : ℤ) * 95 / 100 - 1)).toNat, hlt⟩ := by
  have hn : 0 < events.length := List.length_pos.mpr h
  have hlen : (sortRat (events.map (fun e => e.latency_ms))).length = events.length := by
    rw [sortRat_length, List.length_map]
  have hidx : (max 0 ((events.length : ℤ) * 95 / 100 - 1)).toNat < events.length := by
    have hdiv : (events.length : ℤ) * 95 / 100 ≤ (events.length : ℤ) := by
      have h1 : (events.length : ℤ) * 95 ≤ (events.length : ℤ) * 100 := by
        nlinarith [Int.ofNat_nonneg events.length]
      calc (events.length : ℤ) * 95 / 100 ≤ (events.length : ℤ) * 100 / 100 :=
            Int.ediv_le_ediv (by norm_num) h1
        _ = (events.length : ℤ) := by
            rw [Int.mul_ediv_cancel _ (by norm_num)]
    omega
  refine ⟨hlen ▸ hidx, ?_⟩
  unfold latency_p95
  rw [if_neg h]
  rw [List.getD_eq_getElem _ _ (hlen ▸ hidx)]
  simp [List.get_eq_getElem]

/-- Witness for C3's amended theorem at the concrete two-event sample. -/
theorem C3_p95_nearest_rank_witness :
    ∃ hlt : (max 0 (([mkEvent 10, mkEvent 20].length : ℤ) * 95 / 100 - 1)).toNat
        < (sortRat ([mkEvent 10, mkEvent 20].map (fun e => e.latency_ms))).length,
      latency_p95 [mkEvent 10, mkEvent 20]
        = (sortRat ([mkEvent 10, mkEvent 20].map (fun e => e.latency_ms))).get
            ⟨(max 0 (([mkEvent 10, mkEvent 20].length : ℤ) * 95 / 100 - 1)).toNat, hlt⟩ :=
  C3_p95_nearest_rank [mkEvent 10, mkEvent 20] (by decide)

/-! ## Claim C4: insufficient signal is a hard stop -/

/-- Any hypothesis whose cause is exactly INSUFFICIENT_SIGNAL takes decide's
first guard: a no-op with zero risk. -/
theorem decide_insufficient_guard (m : WindowMetrics) (ctx : Option Context) (now : ℚ)
    (hyp : Hypothesis) (hc : hyp.cause = "INSUFFICIENT_SIGNAL") :
    (decide m hyp ctx now).action.action_type = ActionType.NO_OP
      ∧ (decide m hyp ctx now).action.risk_score = 0
      ∧ (decide m hyp ctx now).risk_score = 0 := by
  unfold decide
  rw [hc, if_pos ⟨by decide, by decide⟩]
  exact ⟨rfl, rfl, rfl⟩

/-- C4: below the minimum sample count (30) the deterministic reasoner
returns the INSUFFICIENT_SIGNAL hypothesis with confidence 0 and
uncertainty 1, and `decide` on that hypothesis returns a no-op trace with
risk score 0 (no action and no escalation). -/
theorem C4_insufficient_signal (m : WindowMetrics) (ctx : Option Context) (now : ℚ)
    (h : m.sample_count < MIN_SAMPLE_FOR_ACT) :
    heuristic_hypothesis m =
      { cause := "INSUFFICIENT_SIGNAL"
        confidence := 0
        evidence := "Sample count too low (" ++ toString m.sample_count
          ++ ") for reliable hypothesis."
        source := "heuristic"
        uncertainty := 1 }
    ∧ (decide m (heuristic_hypothesis m) ctx now).action.action_type = ActionType.NO_OP
    ∧ (decide m (heuristic_hypothesis m) ctx now).action.risk_score = 0
    ∧ (decide m (heuristic_hypothesis m) ctx now).risk_score = 0 := by
  have h1 : heuristic_hypothesis m =
      { cause := "INSUFFICIENT_SIGNAL"
        confidence := 0
        evidence := "Sample count too low (" ++ toString m.sample_count
          ++ ") for reliable hypothesis."
        source := "heuristic"
        uncertainty := 1 } := by
    unfold heuristic_hypothesis
    rw [if_pos h]
    rfl
  exact ⟨h1, decide_insufficient_guard m ctx now _ (by rw [h1])⟩

/-- Concrete metrics with 10 samples for the C4 witness. -/
def c4metrics : WindowMetrics :=
  { window_id := "partial-10", start_ts := 0, end_ts := 1, success_rate := 0.9
    p95_latency_ms := 120, retry_amplification := 0.1, error_distribution := []
    success_rate_by_issuer := [("BANK", 0.9)], sample_count := 10 }

/-- Witness for C4 at sample count 10 < 30. -/
theorem C4_insufficient_signal_witness :
    heuristic_hypothesis c4metrics =
      { cause := "INSUFFICIENT_SIGNAL"
        confidence := 0
        evidence := "Sample count too low (" ++ toString c4metrics.sample_count
          ++ ") for reliable hypothesis."
        source := "heuristic"
        uncertainty := 1 }
    ∧ (decide c4metrics (heuristic_hypothesis c4metrics) none 0).action.action_type
        = ActionType.NO_OP
    ∧ (decide c4metrics (heuristic_hypothesis c4metrics) none 0).action.risk_score = 0
    ∧ (decide c4metrics (heuristic_hypothesis c4metrics) none 0).risk_score = 0 :=
  C4_insufficient_signal c4metrics none 0 (by decide)

/-! ## Claim C10: record_outcome without a pending context is a no-op -/

/-- C10: calling `record_outcome` when no decision context is pending (the
before-snapshot or the pending action is absent, as after `cancel_pending`
or before any `record_decision_context`) leaves the entire Learner state
unchanged: no OutcomeRecord is appended and the effectiveness statistics are
untouched. -/
theorem C10_record_outcome_frame (l : Learner) (m : WindowMetrics) (rb : Bool)
    (h : l.context_before_action = none ∨ l.action_pending = none) :
    l.recordOutcome m rb = l := by
  unfold Learner.recordOutcome
  rcases h with h | h
  · rw [h]
  · rw [h]
    cases hx : l.context_before_action <;> rfl

/-- A learner with recorded history whose pending slot was cleared by
cancel_pending, for the C10 witness. -/
def c10learner : Learner :=
  (({ outcomes := []
      context_before_action := some (metrics_snapshot c4metrics)
      action_pending := some { action_type := "reroute", target := some "BANK" }
      action_stats := [("reroute", { helped := 1, hurt := 0, neutral := 2 })] }
    : Learner)).cancelPending

/-- Witness for C10: after cancel_pending, record_outcome changes nothing. -/
theorem C10_record_outcome_frame_witness :
    c10learner.recordOutcome c2cur true = c10learner :=
  C10_record_outcome_frame c10learner c2cur true (Or.inl rfl)

/-! ## Claim C1: a second high-risk proposal while one is pending -/

/-- The pending escalation stored before the C1 counterexample's call. -/
def c1pending : PendingState :=
  { active := true
    action := { action_type := "reroute", target := some "AXIS", risk_score := 0.6 }
    action_type := "reroute"
    target := some "AXIS"
    risk_score := 0.6
    reason := "High risk; human approval required"
    status := "pending"
    timestamp := 0 }

/-- Executor state with `c1pending` stored (in memory and on disk). -/
def c1exec : Executor :=
  { pending_escalation := some c1pending, disk := some c1pending }

/-- A second high-risk proposal (risk 0.9 ≥ 0.45). -/
def c1trace2 : DecisionTrace :=
  { hypothesis := none
    action := { action_type := "suppress", target := some "heavy_path", risk_score := 0.9 }
    risk_score := 0.9
    reasoning := "r2" }

/-- Counterexample to C1 as stated: executing a second high-risk proposal
while `c1pending` is stored returns executed=false, but the stored pending
escalation is replaced by the new proposal (it no longer equals the
previously stored record). -/
theorem C1_counterexample :
    (c1exec.execute c1trace2 c2cur 1).1.1 = false
      ∧ (c1exec.execute c1trace2 c2cur 1).2.pending_escalation ≠ some c1pending := by
  constructor
  · decide
  · decide

/-- C1 as amended: for every call to `Executor.execute` with a non-no-op
action whose params require human approval or whose risk score is at/above
the auto-execute threshold (0.45), the call returns executed=false, but the
stored pending escalation is overwritten with a fresh pending record for
the new proposal — the executor keeps at most one pending escalation only
because the slot is replaced, not because the first is protected.
(Non-replacement is enforced one level up: Agent.run_cycle freezes and never
calls execute while an escalation is pending.) -/
theorem C1_escalation_replaced (e : Executor) (p : PendingState) (trace : DecisionTrace)
    (m : WindowMetrics) (ts : ℚ)
    (_hp : e.pending_escalation = some p)
    (hno : trace.action.action_type ≠ ActionType.NO_OP)
    (hhigh : requiresHumanApproval trace.action = true
      ∨ trace.action.risk_score ≥ AUTO_EXECUTE_RISK_THRESHOLD) :
    (e.execute trace m ts).1.1 = false
      ∧ ∃ p', (e.execute trace m ts).2.pending_escalation = some p'
          ∧ (e.execute trace m ts).2.disk = some p'
          ∧ p'.action = trace.action ∧ p'.status = "pending" ∧ p'.timestamp = ts := by
  unfold Executor.execute
  rw [if_neg hno]
  cases hr : requiresHumanApproval trace.action with
  | true =>
    rw [if_pos rfl]
    exact ⟨rfl, _, rfl, rfl, rfl, rfl, rfl⟩
  | false =>
    have hrisk : trace.action.risk_score ≥ AUTO_EXECUTE_RISK_THRESHOLD := by
      rcases hhigh with h | h
      · rw [hr] at h; cases h
      · exact h
    rw [if_neg (by simp), if_pos hrisk]
    exact ⟨rfl, _, rfl, rfl, rfl, rfl, rfl⟩

/-- Witness for the amended C1 at the concrete second proposal. -/
theorem C1_escalation_replaced_witness :
    (c1exec.execute c1trace2 c2cur 1).1.1 = false
      ∧ ∃ p', (c1exec.execute c1trace2 c2cur 1).2.pending_escalation = some p'
          ∧ (c1exec.execute c1trace2 c2cur 1).2.disk = some p'
          ∧ p'.action = c1trace2.action ∧ p'.status = "pending" ∧ p'.timestamp = 1 :=
  C1_escalation_replaced c1exec c1pending c1trace2 c2cur 1 rfl (by decide)
    (Or.inr (by decide))

/-! ## Claim C6: outcome classification -/

/-- The harm check on a post-action cost value, as the source's
`cost_after is not None and cost_after >= HARMFUL_COST_INCREASE`. -/
def harmfulCost (after : MetricsSnapshot) : Bool :=
  match after.average_estimated_cost with
  | some c => Decidable.decide (c ≥ HARMFUL_COST_INCREASE)
  | none => false

/-- The harm check on post-action attempt amplification. -/
def harmfulAttempts (after : MetricsSnapshot) : Bool :=
  match after.attempt_amplification with
  | some a => Decidable.decide (a ≥ HARMFUL_ATTEMPT_AMPLIFICATION)
  | none => false

/-- The help check: success-rate improvement or latency reduction beyond the
help thresholds. -/
def improvedOutcome (before after : MetricsSnapshot) : Prop :=
  after.success_rate - before.success_rate ≥ HELPED_SUCCESS_IMPROVEMENT
    ∨ (before.p95_latency_ms > 0
      ∧ (before.p95_latency_ms - after.p95_latency_ms) / before.p95_latency_ms
        ≥ HELPED_LATENCY_REDUCTION)

instance (before after : MetricsSnapshot) : Decidable (improvedOutcome before after) := by
  unfold improvedOutcome
  infer_instance

/-- `_evaluate_helped` unfolded to its decision chain. -/
theorem evaluate_helped_eq (before after : MetricsSnapshot) (rb : Bool) :
    evaluate_helped before after rb
      = if rb then ((false : Bool), (-1 : ℚ))
        else if harmfulCost after then (false, -1)
        else if harmfulAttempts after then (false, -1)
        else if improvedOutcome before after then (true, 1)
        else (false, 0) := by
  cases rb with
  | true => rfl
  | false =>
    unfold evaluate_helped harmfulCost harmfulAttempts improvedOutcome
    rfl

theorem harmfulCost_iff (after : MetricsSnapshot) :
    harmfulCost after = true
      ↔ ∃ c, after.average_estimated_cost = some c ∧ c ≥ HARMFUL_COST_INCREASE := by
  unfold harmfulCost
  cases h : after.average_estimated_cost <;> simp [h]

theorem harmfulAttempts_iff (after : MetricsSnapshot) :
    harmfulAttempts after = true
      ↔ ∃ a, after.attempt_amplification = some a ∧ a ≥ HARMFUL_ATTEMPT_AMPLIFICATION := by
  unfold harmfulAttempts
  cases h : after.attempt_amplification <;> simp [h]

/-- The ring-buffer truncation keeps the just-appended record last. -/
theorem takeLast_append_singleton {α : Type} (n : ℕ) (hn : 0 < n) (xs : List α) (x : α) :
    ∃ rest, takeLast n (xs ++ [x]) = rest ++ [x] := by
  unfold takeLast
  have hle : (xs ++ [x]).length - n ≤ xs.length := by
    simp only [List.length_append, List.length_singleton]
    omega
  refine ⟨xs.drop ((xs ++ [x]).length - n), ?_⟩
  rw [List.drop_append_eq_append_drop, Nat.sub_eq_zero_of_le hle]
  rfl

/-- The appended outcome record survives the ring bound as last element. -/
theorem ring_append_suffix (xs : List OutcomeRecord) (r : OutcomeRecord) :
    ∃ rest,
      (if (xs ++ [r]).length > MAX_OUTCOME_RECORDS
        then takeLast MAX_OUTCOME_RECORDS (xs ++ [r])
        else xs ++ [r]) = rest ++ [r] := by
  split
  · exact takeLast_append_singleton MAX_OUTCOME_RECORDS (by norm_num [MAX_OUTCOME_RECORDS]) xs r
  · exact ⟨xs, rfl⟩

/-- C6: with a pending decision context, `record_outcome` classifies the
record as exactly one of hurt (score −1), helped (+1) or neutral (0), in
the source's order: rollback ⇒ hurt; else a post-action cost or
attempt-amplification at/above the harm thresholds ⇒ hurt; else a
success-rate improvement or latency reduction beyond the help thresholds ⇒
helped; else neutral.  Helped and hurt are mutually exclusive
(helped=true ⟺ score=+1) and rollback always implies hurt (helped=false);
the classified record is appended as the newest OutcomeRecord. -/
theorem C6_outcome_classification (l : Learner) (before : MetricsSnapshot) (act : Action)
    (m : WindowMetrics) (rb : Bool)
    (hc : l.context_before_action = some before) (ha : l.action_pending = some act) :
    ((evaluate_helped before (metrics_snapshot m) rb).2 = -1
        ∨ (evaluate_helped before (metrics_snapshot m) rb).2 = 0
        ∨ (evaluate_helped before (metrics_snapshot m) rb).2 = 1)
    ∧ ((evaluate_helped before (metrics_snapshot m) rb).1 = true
        ↔ (evaluate_helped before (metrics_snapshot m) rb).2 = 1)
    ∧ (rb = true → evaluate_helped before (metrics_snapshot m) rb = (false, -1))
    ∧ (rb = false →
        (harmfulCost (metrics_snapshot m) = true ∨ harmfulAttempts (metrics_snapshot m) = true) →
        evaluate_helped before (metrics_snapshot m) rb = (false, -1))
    ∧ (rb = false → harmfulCost (metrics_snapshot m) = false →
        harmfulAttempts (metrics_snapshot m) = false →
        ((improvedOutcome before (metrics_snapshot m) →
          evaluate_helped before (metrics_snapshot m) rb = (true, 1))
        ∧ (¬ improvedOutcome before (metrics_snapshot m) →
          evaluate_helped before (metrics_snapshot m) rb = (false, 0))))
    ∧ ∃ rest, (l.recordOutcome m rb).outcomes
        = rest ++ [{ context_snapshot := before
                     action := act
                     outcome_metrics := metrics_snapshot m
                     helped := (evaluate_helped before (metrics_snapshot m) rb).1
                     rollback_applied := rb }] := by
  refine ⟨?_, ?_, ?_, ?_, ?_, ?_⟩
  · rw [evaluate_helped_eq]
    split_ifs <;> simp
  · rw [evaluate_helped_eq]
    split_ifs <;> norm_num
  · intro h
    rw [evaluate_helped_eq, h, if_pos rfl]
  · intro h hharm
    rw [evaluate_helped_eq, h, if_neg (by simp)]
    rcases hharm with hcost | hamp
    · rw [if_pos hcost]
    · by_cases hcost : harmfulCost (metrics_snapshot m) = true
      · rw [if_pos hcost]
      · rw [if_neg hcost, if_pos hamp]
  · intro h hcost hamp
    rw [evaluate_helped_eq, h, if_neg (by simp), if_neg (by simp [hcost]),
      if_neg (by simp [hamp])]
    constructor
    · intro himp
      rw [if_pos himp]
    · intro himp
      rw [if_neg himp]
  · unfold Learner.recordOutcome
    rw [hc, ha]
    exact ring_append_suffix l.outcomes _

/-- Witness for C6: a rolled-back outcome is classified hurt and appended. -/
theorem C6_outcome_classification_witness :
    evaluate_helped (metrics_snapshot c4metrics) (metrics_snapshot c2cur) true = (false, -1)
      ∧ ∃ rest,
        (({ outcomes := []
            context_before_action := some (metrics_snapshot c4metrics)
            action_pending := some { action_type := "reroute", target := some "BANK" }
            action_stats := [] } : Learner).recordOutcome c2cur true).outcomes
          = rest ++ [{ context_snapshot := metrics_snapshot c4metrics
                       action := { action_type := "reroute", target := some "BANK" }
                       outcome_metrics := metrics_snapshot c2cur
                       helped := (evaluate_helped (metrics_snapshot c4metrics)
                         (metrics_snapshot c2cur) true).1
                       rollback_applied := true }] := by
  have h := C6_outcome_classification
    { outcomes := []
      context_before_action := some (metrics_snapshot c4metrics)
      action_pending := some { action_type := "reroute", target := some "BANK" }
      action_stats := [] }
    (metrics_snapshot c4metrics) { action_type := "reroute", target := some "BANK" }
    c2cur true rfl rfl
  exact ⟨h.2.2.1 rfl, h.2.2.2.2.2⟩

/-! ## Claim C8: approve / reject round-trip -/

/-- C8: with a pending escalation in memory and a persisted record on disk,
`check_and_apply_approval`:
with persisted status "approved" — applies the action (appending it as an
active action with a fresh trace), makes the current metrics the new
baseline, clears both the in-memory pending record and the persisted one,
and returns the executed Action;
with status "rejected" — clears both pending records without touching the
active actions or the baseline, and returns no Action;
with status still "pending" — returns (false, none, none) and leaves the
whole executor state unchanged. -/
theorem C8_approval_roundtrip (e : Executor) (p d : PendingState) (m : WindowMetrics)
    (ts : ℚ) (hp : e.pending_escalation = some p) (hd : e.disk = some d) :
    (d.status = "approved" →
      (e.checkAndApplyApproval m ts).1.processed = true
        ∧ (e.checkAndApplyApproval m ts).1.approved_action = some d.action
        ∧ (e.checkAndApplyApproval m ts).2.pending_escalation = none
        ∧ (e.checkAndApplyApproval m ts).2.disk = none
        ∧ (e.checkAndApplyApproval m ts).2.baseline_metrics = some m
        ∧ (e.checkAndApplyApproval m ts).2.active_actions
            = e.active_actions
              ++ [({ hypothesis := none
                     action := d.action
                     risk_score := d.action.risk_score
                     reasoning := "Human approved via dashboard"
                     timestamp := ts },
                   { applied_at := ts, status := "executed" })])
    ∧ (d.status = "rejected" →
      (e.checkAndApplyApproval m ts).1.processed = true
        ∧ (e.checkAndApplyApproval m ts).1.approved_action = none
        ∧ (e.checkAndApplyApproval m ts).2.pending_escalation = none
        ∧ (e.checkAndApplyApproval m ts).2.disk = none
        ∧ (e.checkAndApplyApproval m ts).2.active_actions = e.active_actions
        ∧ (e.checkAndApplyApproval m ts).2.baseline_metrics = e.baseline_metrics)
    ∧ (d.status = "pending" →
      (e.checkAndApplyApproval m ts).1
          = { processed := false, message := none, approved_action := none }
        ∧ (e.checkAndApplyApproval m ts).2 = e) := by
  have hred : e.checkAndApplyApproval m ts
      = (if d.status = "approved" then
          ({ processed := true
             message := some ("Human APPROVED: " ++ d.action.action_type
               ++ " target=" ++ optStr d.action.target)
             approved_action := some d.action },
           { e with
               baseline_metrics := some m
               execution_log := e.execution_log
                 ++ ["Human APPROVED: " ++ d.action.action_type
                   ++ " target=" ++ optStr d.action.target]
               active_actions := e.active_actions
                 ++ [({ hypothesis := none
                        action := d.action
                        risk_score := d.action.risk_score
                        reasoning := "Human approved via dashboard"
                        timestamp := ts },
                      { applied_at := ts, status := "executed" })]
               disk := none
               pending_escalation := none })
        else if d.status = "rejected" then
          ({ processed := true
             message := some "Human REJECTED the proposed action."
             approved_action := none },
           { e with
               execution_log := e.execution_log ++ ["Human REJECTED the proposed action."]
               disk := none
               pending_escalation := none })
        else
          ({ processed := false, message := none, approved_action := none }, e)) := by
    unfold Executor.checkAndApplyApproval
    rw [hp]
    show (match readPendingApproval e with
          | none => _
          | some persisted => _) = _
    unfold readPendingApproval
    rw [hd]
    rfl
  refine ⟨?_, ?_, ?_⟩
  · intro hs
    rw [hred, if_pos hs]
    exact ⟨rfl, rfl, rfl, rfl, rfl, rfl⟩
  · intro hs
    rw [hred, if_neg (by rw [hs]; decide), if_pos hs]
    exact ⟨rfl, rfl, rfl, rfl, rfl, rfl⟩
  · intro hs
    rw [hred, if_neg (by rw [hs]; decide), if_neg (by rw [hs]; decide)]
    exact ⟨rfl, rfl⟩

/-- Pending record for the C8 witness, already approved on disk. -/
def c8approved : PendingState :=
  { c1pending with status := "approved" }

/-- Executor for the C8 witness: pending in memory, approved on disk. -/
def c8exec : Executor :=
  { pending_escalation := some c1pending, disk := some c8approved }

/-- Witness for C8: the approved branch executes, re-baselines and clears. -/
theorem C8_approval_roundtrip_witness :
    (c8exec.checkAndApplyApproval c2cur 2).1.processed = true
      ∧ (c8exec.checkAndApplyApproval c2cur 2).1.approved_action = some c8approved.action
      ∧ (c8exec.checkAndApplyApproval c2cur 2).2.pending_escalation = none
      ∧ (c8exec.checkAndApplyApproval c2cur 2).2.disk = none
      ∧ (c8exec.checkAndApplyApproval c2cur 2).2.baseline_metrics = some c2cur
      ∧ (c8exec.checkAndApplyApproval c2cur 2).2.active_actions
          = c8exec.active_actions
            ++ [({ hypothesis := none
                   action := c8approved.action
                   risk_score := c8approved.action.risk_score
                   reasoning := "Human approved via dashboard"
                   timestamp := 2 },
                 { applied_at := 2, status := "executed" })] :=
  (C8_approval_roundtrip c8exec c1pending c8approved c2cur 2 rfl rfl).1 rfl

/-! ## Claim C5: purity and idempotence of metric computation -/

/-- A one-event observer for the C5 counterexample. -/
def c5obs : Observer :=
  { buffer := [mkEvent 7] }

/-- Counterexample to C5 as stated: reading current metrics twice over the
same buffer does not return identical WindowMetrics — the window identifier
changes from w-1 to w-2 because `get_current_metrics` increments the window
counter on every read. -/
theorem C5_counterexample :
    (Option.map (fun mw => mw.window_id) c5obs.getCurrentMetrics.1 = some "w-1")
      ∧ (Option.map (fun mw => mw.window_id)
          (c5obs.getCurrentMetrics.2.getCurrentMetrics.1) = some "w-2")
      ∧ c5obs.getCurrentMetrics.1 ≠ c5obs.getCurrentMetrics.2.getCurrentMetrics.1 := by
  refine ⟨by decide, by decide, by decide⟩

/-- C5 as amended: for a fixed non-empty buffer, `get_partial_metrics` is
pure and idempotent (same output on every read, window identifier included,
and unaffected by the window counter), while two successive
`get_current_metrics` reads return identical metric values except the
window identifier, which increments on each read. -/
theorem C5_metrics_idempotent (o : Observer) (h : o.buffer ≠ []) :
    o.getPartialMetrics = o.getCurrentMetrics.2.getPartialMetrics
    ∧ ∃ m1 m2, o.getCurrentMetrics.1 = some m1
        ∧ o.getCurrentMetrics.2.getCurrentMetrics.1 = some m2
        ∧ m1.window_id = "w-" ++ toString (o.window_counter + 1)
        ∧ m2.window_id = "w-" ++ toString (o.window_counter + 2)
        ∧ { m1 with window_id := "" } = { m2 with window_id := "" } := by
  have h1 : o.getCurrentMetrics
      = (some (computeMetrics ("w-" ++ toString (o.window_counter + 1))
          (takeLast o.window_size o.buffer)),
         { o with window_counter := o.window_counter + 1 }) := by
    unfold Observer.getCurrentMetrics
    rw [if_neg h]
  have h2 : ({ o with window_counter := o.window_counter + 1 } : Observer).getCurrentMetrics
      = (some (computeMetrics ("w-" ++ toString (o.window_counter + 2))
          (takeLast o.window_size o.buffer)),
         { o with window_counter := o.window_counter + 2 }) := by
    unfold Observer.getCurrentMetrics
    rw [if_neg h]
  constructor
  · rw [h1]
    rfl
  · refine ⟨computeMetrics ("w-" ++ toString (o.window_counter + 1))
        (takeLast o.window_size o.buffer),
      computeMetrics ("w-" ++ toString (o.window_counter + 2))
        (takeLast o.window_size o.buffer), ?_, ?_, rfl, rfl, rfl⟩
    · rw [h1]
    · rw [h1]
      show ({ o with window_counter := o.window_counter + 1 } : Observer).getCurrentMetrics.1 = _
      rw [h2]

/-- Witness for the amended C5 at the one-event observer. -/
theorem C5_metrics_idempotent_witness :
    c5obs.getPartialMetrics = c5obs.getCurrentMetrics.2.getPartialMetrics
    ∧ ∃ m1 m2, c5obs.getCurrentMetrics.1 = some m1
        ∧ c5obs.getCurrentMetrics.2.getCurrentMetrics.1 = some m2
        ∧ m1.window_id = "w-" ++ toString (c5obs.window_counter + 1)
        ∧ m2.window_id = "w-" ++ toString (c5obs.window_counter + 2)
        ∧ { m1 with window_id := "" } = { m2 with window_id := "" } :=
  C5_metrics_idempotent c5obs (by decide)

/-! ## Claim C9: decide never raises; unrecognized causes fall through -/

/-- The risk score of a no-op is always 0. -/
theorem risk_score_noop (h : Hypothesis) (t : Option String) (r : ℚ) :
    risk_score_fn h ActionType.NO_OP t r = 0 := by
  unfold risk_score_fn
  rw [if_pos rfl]

/-- C9: `decide` is a total function (its embedding is a plain Lean
function, so every input yields a DecisionTrace), and a hypothesis whose
cause matches none of the recognized patterns (INSUFFICIENT_SIGNAL,
ISSUER_…_DEGRADATION, RETRY_STORM, LATENCY_SPIKE, …DEGRADATION) falls
through to a no-op action with zero risk rather than failing. -/
theorem C9_decide_total_fallthrough (m : WindowMetrics) (hyp : Hypothesis)
    (ctx : Option Context) (now : ℚ)
    (h1 : strContains (strUpper hyp.cause) "INSUFFICIENT_SIGNAL" = false)
    (h2 : ¬(strContains (strUpper hyp.cause) "ISSUER_" = true
        ∧ strContains (strUpper hyp.cause) "_DEGRADATION" = true))
    (h3 : strContains (strUpper hyp.cause) "RETRY_STORM" = false)
    (h4 : strContains (strUpper hyp.cause) "LATENCY_SPIKE" = false)
    (h5 : ¬(strContains (strUpper hyp.cause) "GENERAL_DEGRADATION" = true
        ∨ strContains (strUpper hyp.cause) "DEGRADATION" = true)) :
    (decide m hyp ctx now).action.action_type = ActionType.NO_OP
      ∧ (decide m hyp ctx now).action.risk_score = 0
      ∧ (decide m hyp ctx now).risk_score = 0 := by
  unfold decide
  rw [if_neg (by simp [h1])]
  by_cases hconf : hyp.confidence < MIN_CONFIDENCE_TO_ACT
  · rw [if_pos hconf]
    exact ⟨rfl, rfl, rfl⟩
  · rw [if_neg hconf]
    dsimp only
    rw [if_neg h2]
    rw [if_neg (show ¬(strContains (strUpper hyp.cause) "RETRY_STORM" = true) by
      simp [h3])]
    rw [if_neg (show ¬(strContains (strUpper hyp.cause) "LATENCY_SPIKE" = true) by
      simp [h4])]
    rw [if_neg h5]
    dsimp only
    rw [risk_score_noop]
    cases hpend : (ctx.map (fun c => c.pending_approval)).getD none with
    | none =>
      rw [if_neg (fun hq => hq.2 rfl)]
      exact ⟨rfl, rfl, rfl⟩
    | some p =>
      rw [if_neg (fun hq => hq.2 rfl)]
      dsimp only
      rw [if_neg (fun hq => hq.1 rfl)]
      exact ⟨rfl, rfl, rfl⟩

/-- A hypothesis with an unrecognized cause for the C9 witness. -/
def c9hyp : Hypothesis :=
  { cause := "Cosmic_Ray_Event"
    confidence := 0.9
    evidence := "telemetry glitch"
    source := "heuristic"
    uncertainty := 0.1 }

/-- Witness for C9: the unrecognized cause Cosmic_Ray_Event yields no-op. -/
theorem C9_decide_total_fallthrough_witness :
    (decide c4metrics c9hyp none 0).action.action_type = ActionType.NO_OP
      ∧ (decide c4metrics c9hyp none 0).action.risk_score = 0
      ∧ (decide c4metrics c9hyp none 0).risk_score = 0 :=
  C9_decide_total_fallthrough c4metrics c9hyp none 0 (by decide) (by decide) (by decide)
    (by decide) (by decide)

/-! ## Claim C7: debounce windows

The cycle-count debounce works as specified, but the wall-clock debounce is
dead code: `run_cycle` sets `self._last_action_executed = False` at the top
of every cycle, and `in_time_cooldown` requires that very flag, so it can
never hold by the time the debounce check runs.  The four-cycle run below
evaluates the embedded `run_cycle` at a failing input: an identical
(reroute, ICICI) proposal, whose first occurrence executed 2 seconds earlier
(inside the 3-second DEBOUNCE_SEC window) but 3 cycles earlier (outside the
2-cycle window), is executed again instead of reporting skipped_cooldown. -/

/-- Healthy-enough metrics that trigger none of the forced-handover
guardrails (success 0.70 ≥ 0.65, no cost signal, no merchant breakdown). -/
def c7m : WindowMetrics :=
  { window_id := "partial-200", start_ts := 0, end_ts := 2, success_rate := 0.7
    p95_latency_ms := 120, retry_amplification := 0.1, error_distribution := []
    success_rate_by_issuer := [("ICICI", 0.4)], sample_count := 200 }

/-- Issuer-degradation hypothesis proposing (reroute, ICICI),
risk 0.55·(1−0.85·0.4) = 0.363 < 0.45 so it auto-executes. -/
def c7hypIss : Hypothesis :=
  { cause := "Issuer_ICICI_Degradation"
    confidence := 0.85
    evidence := "Success rate for ICICI dropped"
    source := "heuristic"
    uncertainty := 0.2 }

/-- Insufficient-signal hypothesis used for the two intermediate no-op
cycles that advance the cycle counter without touching the debounce keys. -/
def c7hypIns : Hypothesis :=
  { cause := "INSUFFICIENT_SIGNAL"
    confidence := 0
    evidence := "Sample count too low"
    source := "heuristic"
    uncertainty := 1 }

/-- Cycle 1 at t=0: the (reroute, ICICI) proposal executes. -/
def c7r1 : Agent × List ActionWrite := Agent.runCycle {} c7m (some c7hypIss) 0

/-- Cycle 2 at t=0.5: no-op. -/
def c7r2 : Agent × List ActionWrite := c7r1.1.runCycle c7m (some c7hypIns) 0.5

/-- Cycle 3 at t=1: no-op. -/
def c7r3 : Agent × List ActionWrite := c7r2.1.runCycle c7m (some c7hypIns) 1

/-- Cycle 4 at t=2: the identical (reroute, ICICI) proposal again. -/
def c7r4 : Agent × List ActionWrite := c7r3.1.runCycle c7m (some c7hypIss) 2

/-- C7 failing input evaluated on the embedded code: the first (reroute,
ICICI) proposal executes at cycle 1 (t=0); the identical proposal returns at
cycle 4 (t=2), within the 3-second wall-clock debounce window of the first
execution but outside the 2-cycle window, and is executed with outcome tag
"executed" — the claim (and agent.py's own "time-based debouncing" comment)
require skipped_cooldown here. -/
theorem C7_wallclock_debounce_dead :
    (c7r1.2.map (fun w => (w.action_type, w.target, w.outcome, w.executed))
      = [("reroute", some "ICICI", "executed", true)])
    ∧ c7r4.1.cycle_count = 4
    ∧ c7r1.1.last_executed_cycle = 1
    ∧ c7r3.1.last_decision_action_key = some ("reroute", some "ICICI")
    ∧ ((2 : ℚ) - c7r3.1.last_decision_ts < DEBOUNCE_SEC)
    ∧ (c7r4.2.map (fun w => (w.action_type, w.target, w.outcome, w.executed))
      = [("reroute", some "ICICI", "executed", true)]) := by
  refine ⟨by decide, by decide, by decide, by decide, by decide, by decide⟩

end RatEval

end PayOps
